import Mathlib

set_option maxRecDepth 1000000
set_option maxHeartbeats 2000000

/-!
Verification development for the agdpp balloon-shooter game.

The definitions below are a shallow embedding of the final-stage game code
(src/agdpp.py, src/sprites.py, src/geometry.py, src/gameloop.py).
Python floats are modelled as exact rationals (`ℚ`); the transcendental
parts (`math.sin`/`math.cos` inside `Angle.to_unit_point`) are handled by
(a) an exact sign predicate for the y-component, and (b) an abstract
parameter `unit : Angle → Point` wherever a full unit vector is needed,
so every theorem quantifying over `unit` holds in particular for the real
cosine/sine interpretation.

Python objects that are mutated in place are threaded as explicit state.
Sprites are compared by value; in the Python source each sprite object is
constructed exactly once and list membership/removal uses `==`, which is
identity equality for these classes, so first-occurrence removal of the
visited value coincides with the source's behaviour on every input used
here.
-/

/-! ## Geometry (src/geometry.py) -/

/-- Embeds `Point` from src/geometry.py: an immutable pair of floats,
modelled as exact rationals. -/
structure Point where
  x : ℚ
  y : ℚ
deriving DecidableEq

/-- Embeds `Point.move(dx, dy)`. -/
def Point.move (p : Point) (dx dy : ℚ) : Point :=
  ⟨p.x + dx, p.y + dy⟩

/-- Embeds `Point.add(point)` (defined in the source via `move`). -/
def Point.add (p q : Point) : Point :=
  p.move q.x q.y

/-- Embeds `Point.times(magnification)`. -/
def Point.times (p : Point) (magnification : ℚ) : Point :=
  ⟨p.x * magnification, p.y * magnification⟩

/-- Embeds `Point.set(x=None, y=None)`: replace the coordinates that are
given, keep the others. -/
def Point.set (p : Point) (x? y? : Option ℚ) : Point :=
  ⟨x?.getD p.x, y?.getD p.y⟩

/-- The square of `Point.distance_to(point)`
(`math.sqrt((point.x-self.x)**2+(point.y-self.y)**2)` in the source).
The square root itself is irrational, so comparisons against it are
embedded through this square; see `Balloon.contains`. -/
def Point.distance_to_sq (p q : Point) : ℚ :=
  (q.x - p.x) ^ 2 + (q.y - p.y) ^ 2

/-- Embeds `Rectangle` from src/geometry.py. -/
structure Rectangle where
  topleft : Point
  bottomright : Point
deriving DecidableEq

/-- Embeds `Rectangle.from_size(width, height)`. -/
def Rectangle.from_size (width height : ℚ) : Rectangle :=
  ⟨⟨0, 0⟩, ⟨width, height⟩⟩

/-- Embeds `Rectangle.inflate(amount)`. -/
def Rectangle.inflate (r : Rectangle) (amount : ℚ) : Rectangle :=
  ⟨r.topleft.move (-amount) (-amount), r.bottomright.move amount amount⟩

/-- Embeds `Rectangle.deflate(amount)` (defined as `inflate(-amount)`). -/
def Rectangle.deflate (r : Rectangle) (amount : ℚ) : Rectangle :=
  r.inflate (-amount)

/-- Embeds `Rectangle.contains(point)`: the four-way if/elif chain, an
inclusive bounds check on both axes. -/
def Rectangle.contains (r : Rectangle) (point : Point) : Bool :=
  if point.x < r.topleft.x then false
  else if r.bottomright.x < point.x then false
  else if point.y < r.topleft.y then false
  else if r.bottomright.y < point.y then false
  else true

/-- Embeds `Rectangle.get_random_x()`, which is
`random.randint(self.topleft.x, self.bottomright.x)`.  The randomness is
modelled by a seed chosen by the environment; for an integral rectangle
with `topleft.x ≤ bottomright.x` (the only way the source calls it) every
value the source can produce is produced by some seed, and every seed
produces a value the source can produce. -/
def Rectangle.get_random_x (r : Rectangle) (seed : ℕ) : ℚ :=
  (⌊r.topleft.x⌋ + (seed : ℤ) % (⌊r.bottomright.x⌋ - ⌊r.topleft.x⌋ + 1) : ℤ)

/-- Modelled from the spec: `Rectangle.bottomleft` is used by
`GameplayScene.init_bows` (src/agdpp.py line 427) but absent from
src/geometry.py.  Per the spec's bow layout ("evenly spaced along the
bottom edge") and the layout doctest in src/agdpp.py (a 90x50 screen puts
bows at y = -70 = 50 - 120), it is the bottom-left corner. -/
def Rectangle.bottomleft (r : Rectangle) : Point :=
  ⟨r.topleft.x, r.bottomright.y⟩

/-- Modelled from the spec: `Rectangle.width` is used by
`GameplayScene.init_bows` (src/agdpp.py line 428) but absent from
src/geometry.py; it is the horizontal extent, matching the layout doctest
in src/agdpp.py (90-wide screen, two players, bows at x = 30 and 60). -/
def Rectangle.width (r : Rectangle) : ℚ :=
  r.bottomright.x - r.topleft.x

/-- Embeds `Angle` from src/geometry.py. -/
structure Angle where
  degrees : ℚ
deriving DecidableEq

/-- Embeds `Angle.up()` (-90 degrees, north in screen coordinates). -/
def Angle.up : Angle := ⟨-90⟩

/-- Embeds `Angle.zero()`. -/
def Angle.zero : Angle := ⟨0⟩

/-- Embeds `Angle.fraction_of_whole(fraction)`. -/
def Angle.fraction_of_whole (fraction : ℚ) : Angle :=
  ⟨360 * fraction⟩

/-- Embeds `Angle.add(other)`. -/
def Angle.add (a b : Angle) : Angle :=
  ⟨a.degrees + b.degrees⟩

/-- Embeds the test `self.to_unit_point().y < 0` used by `Bow.turn`
(src/agdpp.py line 668).  The y-component is `sin(radians(degrees))`,
which is strictly negative exactly when the angle reduced into [0, 360)
lies strictly between 180 and 360. -/
def Angle.to_unit_point_y_neg (a : Angle) : Bool :=
  decide (180 < a.degrees - 360 * ⌊a.degrees / 360⌋)

/-! ## Sprite group (src/sprites.py) -/

/-- Modelled from the spec: `SpriteGroup.remove(entity)` is called from
src/agdpp.py (lines 450, 452, 504, 558) and exercised by its doctests,
but the method is absent from src/sprites.py.  Spec 4.2: "remove(entity):
removes by identity".  Python's `list.remove` drops the first element
`==` to the argument; these sprite classes compare by identity and each
object is stored at most once, so this is removal of the first occurrence
of the sprite (sprites are values in this embedding). -/
def SpriteGroup.remove {α : Type} [DecidableEq α] : List α → α → List α
  | [], _ => []
  | x :: rest, y => if x = y then rest else x :: SpriteGroup.remove rest y

/-! ## Balloon (src/agdpp.py) -/

/-- Embeds `Balloon`: position, radius, and the fixed drift speed
`self.speed = 0.1` set by `__init__`. -/
structure Balloon where
  position : Point
  radius : ℚ
  speed : ℚ
deriving DecidableEq

/-- Embeds `Balloon.__init__(position, radius=40)`. -/
def Balloon.new (position : Point) (radius : ℚ) : Balloon :=
  ⟨position, radius, 1/10⟩

/-- Embeds `Balloon.is_outside_of(screen_area)`:
`not screen_area.inflate(self.radius*2).contains(self.position)`. -/
def Balloon.is_outside_of (b : Balloon) (screen_area : Rectangle) : Bool :=
  !(screen_area.inflate (b.radius * 2)).contains b.position

/-- Embeds `Balloon.contains(position)`:
`self.position.distance_to(position) <= self.radius`.  For every real
`r`, `sqrt d ≤ r` iff `0 ≤ r` and `d ≤ r²`, so the comparison through
the square is exact (theorem `C5_hits_baloon_inclusive_circle_test`
proves the equivalence against `Real.sqrt`). -/
def Balloon.contains (b : Balloon) (position : Point) : Bool :=
  decide (0 ≤ b.radius) && decide (b.position.distance_to_sq position ≤ b.radius ^ 2)

/-- Embeds `Balloon.update(dt)`: `self.position.move(dy=dt*self.speed)`. -/
def Balloon.update (dt : ℚ) (b : Balloon) : Balloon :=
  { b with position := b.position.move 0 (dt * b.speed) }

/-! ## Balloons container (src/agdpp.py) -/

/-- Embeds the `Balloons` sprite group: the contained balloons plus the
constructor arguments `screen_area` and `number_of_balloons`.
`random.randint` calls made by `spawn_new` are modelled by the seed
stream `seeds`, consumed at index `seed_idx`. -/
structure Balloons where
  sprites : List Balloon
  screen_area : Rectangle
  number_of_balloons : ℕ
  seeds : ℕ → ℕ
  seed_idx : ℕ

/-- Embeds `Balloons.__init__(positions, screen_area, number_of_balloons)`. -/
def Balloons.new (positions : List Point) (screen_area : Rectangle)
    (number_of_balloons : ℕ) (seeds : ℕ → ℕ) : Balloons :=
  { sprites := positions.map (fun p => Balloon.new p 40)
    screen_area := screen_area
    number_of_balloons := number_of_balloons
    seeds := seeds
    seed_idx := 0 }

/-- Embeds `Balloons.remove` (inherited `SpriteGroup.remove`). -/
def Balloons.remove (bs : Balloons) (b : Balloon) : Balloons :=
  { bs with sprites := SpriteGroup.remove bs.sprites b }

/-- Embeds `Balloons.spawn_new()`: pick a random x in the screen area
deflated by 50 and append a balloon at the top edge with that x. -/
def Balloons.spawn_new (bs : Balloons) : Balloons :=
  { bs with
      sprites := bs.sprites ++
        [Balloon.new
          (bs.screen_area.topleft.set
            (some ((bs.screen_area.deflate 50).get_random_x (bs.seeds bs.seed_idx))) none)
          40]
      seed_idx := bs.seed_idx + 1 }

/-- Embeds the removal pass of `Balloons.update` (src/agdpp.py 556-558):
`for balloon in self.get_sprites(): if balloon.is_outside_of(...):
self.remove(balloon)`.  `get_sprites` returns the live list, so this is
CPython list iteration with in-place removal: the iterator keeps a bare
index, and removing the visited element shifts the next element onto the
current index, so that next element is kept but never visited.  The
structural recursion below reproduces exactly that index semantics. -/
def Balloons.cull (screen_area : Rectangle) : List Balloon → List Balloon
  | [] => []
  | b :: rest =>
    if b.is_outside_of screen_area then
      match rest with
      | [] => []
      | skipped :: rest2 => skipped :: Balloons.cull screen_area rest2
    else
      b :: Balloons.cull screen_area rest

/-- Runs `Balloons.spawn_new` `n` times in sequence. -/
def Balloons.spawn_times : ℕ → Balloons → Balloons
  | 0, bs => bs
  | n + 1, bs => Balloons.spawn_times n bs.spawn_new

/-- Embeds the spawn loop of `Balloons.update` (src/agdpp.py 559-560):
`while len(self.get_sprites()) < self.number_of_balloons:
self.spawn_new()`.  Each `spawn_new` appends exactly one balloon, so the
loop body runs exactly `number_of_balloons - len(sprites)` times
(truncated subtraction: zero times when already at or above target). -/
def Balloons.spawn_loop (bs : Balloons) : Balloons :=
  Balloons.spawn_times (bs.number_of_balloons - bs.sprites.length) bs

/-- Embeds `Balloons.update(dt)`: move every balloon
(`SpriteGroup.update`), remove those outside the screen area, then spawn
up to `number_of_balloons`. -/
def Balloons.update (dt : ℚ) (bs : Balloons) : Balloons :=
  Balloons.spawn_loop
    { bs with
        sprites := Balloons.cull bs.screen_area (bs.sprites.map (Balloon.update dt)) }

example :
    (Balloons.update 0
      (Balloons.new [⟨1000, 1000⟩] (Rectangle.from_size 500 500) 3 (fun _ => 0))).sprites.length
      = 3 :=
  of_decide_eq_true (by with_unfolding_all rfl)

example :
    Balloons.cull (Rectangle.from_size 500 500)
      [Balloon.new ⟨1000, 1000⟩ 40, Balloon.new ⟨2000, 2000⟩ 40]
      = [Balloon.new ⟨2000, 2000⟩ 40] :=
  of_decide_eq_true (by with_unfolding_all rfl)

/-! ## Arrow and Bow (src/agdpp.py)

`Arrow.update` needs the full unit vector
`self.angle.to_unit_point().times(dt)`, whose components are
transcendental.  Every definition that needs it takes an abstract
parameter `unit : Angle → Point` standing for `Angle.to_unit_point`;
theorems quantify over `unit`, so they hold in particular for the real
cosine/sine interpretation. -/

/-- Embeds `Arrow`: position, shooting flag, angle, and color tag. -/
structure Arrow where
  position : Point
  shooting : Bool
  angle : Angle
  color : String
deriving DecidableEq

/-- Embeds `Arrow.__init__(shooting=False, position=Point(600,600),
angle=Angle.up(), color="blue")`. -/
def Arrow.new (shooting : Bool) (position : Point) (angle : Angle) (color : String) : Arrow :=
  ⟨position, shooting, angle, color⟩

/-- `Arrow(position=position)`: the constructor call made by
`GameplayScene.__init__` for each initial flying-arrow position, with all
other arguments defaulted. -/
def Arrow.new_at (position : Point) : Arrow :=
  Arrow.new false position Angle.up "blue"

/-- Embeds `Arrow.get_angle`. -/
def Arrow.get_angle (a : Arrow) : Angle := a.angle

/-- Embeds `Arrow.set_angle(angle)`. -/
def Arrow.set_angle (a : Arrow) (angle : Angle) : Arrow :=
  { a with angle := angle }

/-- Embeds `Arrow.get_position`. -/
def Arrow.get_position (a : Arrow) : Point := a.position

/-- Embeds `Arrow.clone_shooting()`:
`Arrow(shooting=True, position=self.position, angle=self.angle, color=self.color)`. -/
def Arrow.clone_shooting (a : Arrow) : Arrow :=
  Arrow.new true a.position a.angle a.color

/-- Embeds `Arrow.is_outside_of(screen_area)`:
`not screen_area.inflate(20).contains(self.position)`. -/
def Arrow.is_outside_of (a : Arrow) (screen_area : Rectangle) : Bool :=
  !(screen_area.inflate 20).contains a.position

/-- Embeds `Arrow.hits_baloon(balloon)`: `balloon.contains(self.position)`
(sic: the source spells it `hits_baloon`). -/
def Arrow.hits_baloon (a : Arrow) (balloon : Balloon) : Bool :=
  balloon.contains a.position

/-- Embeds `Arrow.update(dt)`: if shooting, move along the aim direction,
`self.position.add(self.angle.to_unit_point().times(dt))`. -/
def Arrow.update (unit : Angle → Point) (dt : ℚ) (a : Arrow) : Arrow :=
  if a.shooting then
    { a with position := a.position.add ((unit a.angle).times dt) }
  else
    a

/-- Embeds `Bow`, a sprite group owning one nocked arrow. -/
structure Bow where
  arrow : Arrow
deriving DecidableEq

/-- Embeds `Bow.__init__(position=Point(600,600), color="blue")`: the
nocked arrow starts at the bow position, aimed up, not shooting. -/
def Bow.new (position : Point) (color : String) : Bow :=
  ⟨Arrow.new false position Angle.up color⟩

/-- Embeds `Bow.get_angle`. -/
def Bow.get_angle (bw : Bow) : Angle := bw.arrow.get_angle

/-- Embeds `Bow.get_position`. -/
def Bow.get_position (bw : Bow) : Point := bw.arrow.get_position

/-- Embeds `Bow.turn(angle)`: propose `current + angle`; commit only when
the proposed angle's unit vector has a strictly negative y-component. -/
def Bow.turn (bw : Bow) (angle : Angle) : Bow :=
  let new_angle := (bw.get_angle).add angle
  if new_angle.to_unit_point_y_neg then
    ⟨bw.arrow.set_angle new_angle⟩
  else
    bw

/-- Embeds `Bow.shoot()`: `self.arrow.clone_shooting()`. -/
def Bow.shoot (bw : Bow) : Arrow :=
  bw.arrow.clone_shooting

/-- Embeds the update a `Bow` receives as a sprite group: it forwards to
its only child, the nocked arrow. -/
def Bow.update (unit : Angle → Point) (dt : ℚ) (bw : Bow) : Bow :=
  ⟨Arrow.update unit dt bw.arrow⟩

/-! ## Events and input handler (src/gameloop.py, src/agdpp.py) -/

/-- pygame key code `K_SPACE`. -/
def KEY_SPACE : ℕ := 32
/-- pygame key code `K_LEFT`. -/
def KEY_LEFT : ℕ := 1073741904
/-- pygame key code `K_RIGHT`. -/
def KEY_RIGHT : ℕ := 1073741903
/-- Xbox controller button code for A (src/gameloop.py). -/
def XBOX_A : ℕ := 0

/-- Embeds the pygame events the game consumes (src/gameloop.py `Event`):
window close, key down/up, joystick button down and joystick axis motion
with a device instance id. -/
inductive Event where
  | keydown (key : ℕ)
  | keyup (key : ℕ)
  | joystick_down (button : ℕ) (instance_id : ℕ)
  | joystick_motion (axis : ℕ) (value : ℚ) (instance_id : ℕ)
  | user_closed_window
deriving DecidableEq

/-- Embeds `Event.is_user_closed_window()`. -/
def Event.is_user_closed_window : Event → Bool
  | .user_closed_window => true
  | _ => false

/-- Python dict assignment `d[k] = v` on an insertion-ordered dict,
modelled as an association list: overwrite in place if the key exists,
else append. -/
def dict_set {β : Type} : List (String × β) → String → β → List (String × β)
  | [], k, v => [(k, v)]
  | (k0, v0) :: rest, k, v =>
    if k0 = k then (k0, v) :: rest else (k0, v0) :: dict_set rest k v

/-- Embeds `InputHandler` state: `shots_triggered` and `turn_factors` are
filled by `event`, `shots` and `turn_angles` are the per-frame action
set produced by `update`.  (In the source `shots`/`turn_angles` only
exist after the first `update` call, which always precedes any read.) -/
structure InputHandler where
  shots_triggered : List String
  turn_factors : List (String × ℚ)
  shots : List String
  turn_angles : List (String × Angle)

/-- Embeds `InputHandler.__init__`. -/
def InputHandler.new : InputHandler :=
  ⟨[], [], [], []⟩

/-- Embeds `InputHandler.turn_speed = 1/2500` (fraction of a whole turn
per millisecond; the float literal is idealized as the exact rational). -/
def InputHandler.turn_speed : ℚ := 1 / 2500

/-- Embeds `InputHandler.joystick_id(event)`:
the string `joystick{instance_id}`. -/
def InputHandler.joystick_id (instance_id : ℕ) : String :=
  "joystick" ++ toString instance_id

/-- Embeds `InputHandler.event(event)`: the if/elif chain appending shot
sources and latching turn factors (joystick axis 0 with a deadzone of
0.01, idealized as the exact rational 1/100). -/
def InputHandler.event (ih : InputHandler) (e : Event) : InputHandler :=
  match e with
  | .keydown k =>
    if k = KEY_SPACE then
      { ih with shots_triggered := ih.shots_triggered ++ ["keyboard"] }
    else if k = KEY_LEFT then
      { ih with turn_factors := dict_set ih.turn_factors "keyboard" (-1) }
    else if k = KEY_RIGHT then
      { ih with turn_factors := dict_set ih.turn_factors "keyboard" 1 }
    else ih
  | .keyup k =>
    if k = KEY_LEFT then
      { ih with turn_factors := dict_set ih.turn_factors "keyboard" 0 }
    else if k = KEY_RIGHT then
      { ih with turn_factors := dict_set ih.turn_factors "keyboard" 0 }
    else ih
  | .joystick_down b iid =>
    if b = XBOX_A then
      { ih with shots_triggered := ih.shots_triggered ++ [InputHandler.joystick_id iid] }
    else ih
  | .joystick_motion axis value iid =>
    if axis = 0 then
      if 1/100 < |value| then
        { ih with turn_factors := dict_set ih.turn_factors (InputHandler.joystick_id iid) value }
      else
        { ih with turn_factors := dict_set ih.turn_factors (InputHandler.joystick_id iid) 0 }
    else ih
  | .user_closed_window => ih

/-- Embeds `InputHandler.update(dt)`: publish the buffered shot sources
as `shots` and clear the buffer; derive this frame's `turn_angles` from
the latched turn factors. -/
def InputHandler.update (dt : ℚ) (ih : InputHandler) : InputHandler :=
  { ih with
      shots := ih.shots_triggered
      shots_triggered := []
      turn_angles := ih.turn_factors.map
        (fun kv => (kv.1, Angle.fraction_of_whole (kv.2 * dt * InputHandler.turn_speed))) }

/-- Embeds `InputHandler.get_shots()`. -/
def InputHandler.get_shots (ih : InputHandler) : List String := ih.shots

/-- Embeds `InputHandler.get_turn_angles()`. -/
def InputHandler.get_turn_angles (ih : InputHandler) : List (String × Angle) := ih.turn_angles

example :
    (InputHandler.update 0
      (InputHandler.event
        (InputHandler.event (InputHandler.update 0 InputHandler.new) (.keydown KEY_SPACE))
        (.joystick_down XBOX_A 7))).get_shots = ["keyboard", "joystick7"] :=
  of_decide_eq_true (by with_unfolding_all rfl)

/-! ## Gameplay scene (src/agdpp.py) -/

/-- Embeds `Balloons.get_balloon_hit_by_arrow(arrow)`: the first balloon
in container order that the arrow hits, `None` if there is none (the
Python function falls off the end without a `return`). -/
def Balloons.get_balloon_hit_by_arrow (bs : Balloons) (arrow : Arrow) : Option Balloon :=
  bs.sprites.find? (fun balloon => arrow.hits_baloon balloon)

/-- Embeds `ColorGenerator`: yields blue, green, yellow, then black
forever (`self.colors.pop(0)` until empty). -/
structure ColorGenerator where
  colors : List String

/-- Embeds `ColorGenerator.__init__`. -/
def ColorGenerator.new : ColorGenerator :=
  ⟨["blue", "green", "yellow"]⟩

/-- Embeds `ColorGenerator.get_next()`, returning the color and the
generator's new state. -/
def ColorGenerator.get_next : ColorGenerator → String × ColorGenerator
  | ⟨[]⟩ => ("black", ⟨[]⟩)
  | ⟨c :: rest⟩ => (c, ⟨rest⟩)

/-- Embeds `GameplayScene` state: the Balloons child, the per-player bow
dict (insertion-ordered, as a Python dict is), the flying-arrows sprite
group, the score counter (`Score.score`), and the input handler. -/
structure GameplayScene where
  screen_area : Rectangle
  balloons : Balloons
  bows : List (String × Bow)
  flying_arrows : List Arrow
  score : ℤ
  input_handler : InputHandler

/-- The loop body of `GameplayScene.init_bows`: walk the players,
advancing the bow position by `bow_increment` and drawing the next color
before each bow is created. -/
def GameplayScene.init_bows_go (bow_increment : ℚ) :
    Point → ColorGenerator → List String → List (String × Bow)
  | _, _, [] => []
  | bow_position, colors, player :: rest =>
    let bow_position2 := bow_position.move bow_increment 0
    let next := colors.get_next
    (player, Bow.new bow_position2 next.1) ::
      GameplayScene.init_bows_go bow_increment bow_position2 next.2 rest

/-- Embeds `GameplayScene.init_bows(players)`: bows evenly spaced along
the bottom edge, 120 above it, one color per player. -/
def GameplayScene.init_bows (screen_area : Rectangle) (players : List String) :
    List (String × Bow) :=
  GameplayScene.init_bows_go (screen_area.width / (players.length + 1))
    (screen_area.bottomleft.move 0 (-120)) ColorGenerator.new players

/-- Embeds `GameplayScene.__init__(screen_area, balloons=[], arrows=[],
players=["test_input_device"])`.  `number_of_balloons` is
`3*len(players)`; initial arrows are non-shooting arrows at the given
positions; score starts at 0. -/
def GameplayScene.init (screen_area : Rectangle) (balloons : List Point)
    (arrows : List Point) (players : List String) (seeds : ℕ → ℕ) : GameplayScene :=
  { screen_area := screen_area
    balloons := Balloons.new balloons screen_area (3 * players.length) seeds
    bows := GameplayScene.init_bows screen_area players
    flying_arrows := arrows.map Arrow.new_at
    score := 0
    input_handler := InputHandler.new }

/-- Embeds `GameplayScene.bow_for_player(player)` (src/agdpp.py 470-474):
scan the bow dict; return the first bow whose key equals `player`; when
the loop finishes without a match, `return bow` yields the loop
variable's final binding, i.e. the last bow; when the dict is empty the
loop variable was never bound and the call raises `NameError`, modelled
as `none`.  The accumulator holds the loop variable's current binding. -/
def GameplayScene.bow_for_player_go : List (String × Bow) → String → Option Bow → Option Bow
  | [], _, last => last
  | (input_id, bw) :: rest, player, _ =>
    if input_id = player then some bw
    else GameplayScene.bow_for_player_go rest player (some bw)

/-- Embeds `GameplayScene.bow_for_player(player)`; see
`GameplayScene.bow_for_player_go`. -/
def GameplayScene.bow_for_player (bows : List (String × Bow)) (player : String) : Option Bow :=
  GameplayScene.bow_for_player_go bows player none

/-- Embeds the shot loop of `GameplayScene.update` (lines 442-443):
`for player in get_shots(): flying_arrows.add(bow_for_player(player).shoot())`.
`none` propagates the `NameError` a `bow_for_player` call on an empty
bow dict would raise. -/
def GameplayScene.add_shot_arrows (bows : List (String × Bow)) :
    List Arrow → List String → Option (List Arrow)
  | arrows, [] => some arrows
  | arrows, player :: rest =>
    match GameplayScene.bow_for_player bows player with
    | none => none
    | some bw => GameplayScene.add_shot_arrows bows (arrows ++ [bw.shoot]) rest

/-- One step of the turn loop: `bow_for_player(player).turn(turn_angle)`
mutates the first bow keyed `player`, or — when no key matches — the
last bow (the loop variable's final binding). -/
def GameplayScene.turn_bow_go : List (String × Bow) → String → Angle → List (String × Bow)
  | [], _, _ => []
  | [(k, bw)], _, angle =>
    [(k, bw.turn angle)]
  | (k, bw) :: next :: rest, player, angle =>
    if k = player then (k, bw.turn angle) :: next :: rest
    else (k, bw) :: GameplayScene.turn_bow_go (next :: rest) player angle

/-- Embeds one iteration of the turn loop of `GameplayScene.update`
(lines 444-445) as a whole-dict transformation. -/
def GameplayScene.turn_bow (bows : List (String × Bow)) (player : String) (angle : Angle) :
    Option (List (String × Bow)) :=
  match bows with
  | [] => none
  | _ => some (GameplayScene.turn_bow_go bows player angle)

/-- Embeds the turn loop of `GameplayScene.update` (lines 444-445):
`for player, turn_angle in get_turn_angles().items(): bow_for_player(player).turn(turn_angle)`. -/
def GameplayScene.turn_bows :
    List (String × Bow) → List (String × Angle) → Option (List (String × Bow))
  | bows, [] => some bows
  | bows, (player, angle) :: rest =>
    match GameplayScene.turn_bow bows player angle with
    | none => none
    | some bows2 => GameplayScene.turn_bows bows2 rest

/-- Embeds the collision pass of `GameplayScene.update` (lines 447-453):
`for arrow in self.flying_arrows.get_sprites(): ...`.  `get_sprites`
returns the live list; removing the visited arrow makes the CPython list
iterator skip the element shifted onto the current index (kept, but not
visited), exactly as in `Balloons.cull`.  Returns the remaining flying
arrows, the remaining balloons state, and the score. -/
def GameplayScene.resolve (screen_area : Rectangle) :
    List Arrow → Balloons → ℤ → List Arrow × Balloons × ℤ
  | [], bs, score => ([], bs, score)
  | arrow :: rest, bs, score =>
    match bs.get_balloon_hit_by_arrow arrow with
    | some hit_balloon =>
      let bs2 := bs.remove hit_balloon
      let score2 := score + 1
      match rest with
      | [] => ([], bs2, score2)
      | skipped :: rest2 =>
        let r := GameplayScene.resolve screen_area rest2 bs2 score2
        (skipped :: r.1, r.2)
    | none =>
      if arrow.is_outside_of screen_area then
        match rest with
        | [] => ([], bs, score)
        | skipped :: rest2 =>
          let r := GameplayScene.resolve screen_area rest2 bs score
          (skipped :: r.1, r.2)
      else
        let r := GameplayScene.resolve screen_area rest bs score
        (arrow :: r.1, r.2)

/-- Embeds `GameplayScene.update(dt)` (lines 440-453), in source order:
input handler update; spawn a flying arrow per buffered shot; apply turn
angles; `SpriteGroup.update` over the children in insertion order
(balloons with cull+spawn, each bow's nocked arrow, each flying arrow,
score no-op); then the collision pass.  `none` models the `NameError`
raised by `bow_for_player` when the bow dict is empty. -/
def GameplayScene.update (unit : Angle → Point) (dt : ℚ) (g : GameplayScene) :
    Option GameplayScene :=
  let ih := g.input_handler.update dt
  match GameplayScene.add_shot_arrows g.bows g.flying_arrows ih.get_shots with
  | none => none
  | some arrows1 =>
    match GameplayScene.turn_bows g.bows ih.get_turn_angles with
    | none => none
    | some bows1 =>
      let balloons1 := Balloons.update dt g.balloons
      let bows2 := bows1.map (fun kv => (kv.1, Bow.update unit dt kv.2))
      let arrows2 := arrows1.map (Arrow.update unit dt)
      let r := GameplayScene.resolve g.screen_area arrows2 balloons1 g.score
      some { g with
              balloons := r.2.1
              bows := bows2
              flying_arrows := r.1
              score := r.2.2
              input_handler := ih }

/-- Embeds `GameplayScene.event(event)`: forward to the input handler. -/
def GameplayScene.event (g : GameplayScene) (e : Event) : GameplayScene :=
  { g with input_handler := g.input_handler.event e }

/-- Embeds `GameplayScene.get_flying_arrows()`. -/
def GameplayScene.get_flying_arrows (g : GameplayScene) : List Arrow := g.flying_arrows

/-- Embeds `GameplayScene.get_balloons()`. -/
def GameplayScene.get_balloons (g : GameplayScene) : List Balloon := g.balloons.sprites

/-- Embeds `GameplayScene.get_score()`. -/
def GameplayScene.get_score (g : GameplayScene) : ℤ := g.score

/-! ## Start scene (src/agdpp.py) -/

/-- Embeds `StartScene` state.  In the source `self.players` starts as
`None` and, once one pending player shoots a second time, is assigned
`self.pending_players` — the same list object, which later appends would
also mutate.  That aliasing is modelled exactly by the flag
`players_set`: `get_players` reads `pending_players` through it. -/
structure StartScene where
  balloons : Balloons
  input_handler : InputHandler
  pending_players : List String
  players_set : Bool

/-- Embeds `StartScene.__init__(screen_area)`.  The source scatters 15
balloons at positions drawn from `random.randint`; the drawn positions
are passed in here as `positions` (the randomness is the caller's
choice of them), and `number_of_balloons` is their count, as in the
source. -/
def StartScene.init (screen_area : Rectangle) (positions : List Point) (seeds : ℕ → ℕ) :
    StartScene :=
  { balloons := Balloons.new positions screen_area positions.length seeds
    input_handler := InputHandler.new
    pending_players := []
    players_set := false }

/-- Embeds `StartScene.event(event)`: forward to the input handler. -/
def StartScene.event (s : StartScene) (e : Event) : StartScene :=
  { s with input_handler := s.input_handler.event e }

/-- Embeds the shot loop of `StartScene.update` (lines 222-226): a shot
from a pending player publishes the roster (`self.players =
self.pending_players`); a shot from a new player appends it to
`pending_players`. -/
def StartScene.register_shots :
    List String → Bool → List String → List String × Bool
  | pending, flag, [] => (pending, flag)
  | pending, flag, player :: rest =>
    if player ∈ pending then
      StartScene.register_shots pending true rest
    else
      StartScene.register_shots (pending ++ [player]) flag rest

/-- Embeds `StartScene.update(dt)`: `SpriteGroup.update` (the only child
sprite is the Balloons group), then the input handler update, then the
shot loop. -/
def StartScene.update (dt : ℚ) (s : StartScene) : StartScene :=
  let ih := s.input_handler.update dt
  let pf := StartScene.register_shots s.pending_players s.players_set ih.get_shots
  { balloons := Balloons.update dt s.balloons
    input_handler := ih
    pending_players := pf.1
    players_set := pf.2 }

/-- Embeds `StartScene.get_players()`: `None` until the roster is
published, afterwards the pending list (aliased, see `StartScene`). -/
def StartScene.get_players (s : StartScene) : Option (List String) :=
  if s.players_set then some s.pending_players else none

/-! ## Game scene and loop driver (src/agdpp.py, src/gameloop.py) -/

/-- The active sub-scene of `GameScene`. -/
inductive ActiveScene where
  | start (s : StartScene)
  | play (g : GameplayScene)

/-- Embeds `GameScene`: the screen area and the active sub-scene.
`gameplay_seeds` is the random stream handed to the `GameplayScene`'s
balloon spawner on transition (in the source both scenes share Python's
global `random`). -/
structure GameScene where
  screen_area : Rectangle
  active : ActiveScene
  gameplay_seeds : ℕ → ℕ

/-- Embeds `GameScene.__init__(screen_area)`: the active scene starts as
a fresh `StartScene`. -/
def GameScene.init (screen_area : Rectangle) (start_positions : List Point)
    (start_seeds gameplay_seeds : ℕ → ℕ) : GameScene :=
  { screen_area := screen_area
    active := .start (StartScene.init screen_area start_positions start_seeds)
    gameplay_seeds := gameplay_seeds }

/-- Embeds `GameScene.event(event)` (src/agdpp.py 159-162): a
user-closed-window event raises `ExitGameLoop` (the `Except.error`);
every other event is forwarded to the active scene. -/
def GameScene.event (g : GameScene) (e : Event) : Except Unit GameScene :=
  if e.is_user_closed_window then
    .error ()
  else
    .ok { g with active :=
      match g.active with
      | .start s => .start (s.event e)
      | .play gp => .play (gp.event e) }

/-- Embeds `GameScene.update(dt)` (src/agdpp.py 164-171): update the
active scene; if it is the start scene and its player list is non-empty
(Python truthiness: `None` and `[]` are both falsy), replace it with a
gameplay scene for those players.  `none` propagates a crash inside
`GameplayScene.update`. -/
def GameScene.update (unit : Angle → Point) (dt : ℚ) (g : GameScene) : Option GameScene :=
  match g.active with
  | .start s =>
    let s1 := s.update dt
    match s1.get_players with
    | some (p :: ps) =>
      some { g with active := .play (GameplayScene.init g.screen_area [] [] (p :: ps) g.gameplay_seeds) }
    | _ => some { g with active := .start s1 }
  | .play gp =>
    (gp.update unit dt).map (fun gp1 => { g with active := .play gp1 })

/-- The notifications `GameLoop.run` emits that this development tracks. -/
inductive Notification where
  | gameloop_init
  | gameloop_quit
deriving DecidableEq

/-- How a run of the driver loop ended.  `out_of_frames` marks an event
stream that was exhausted with the loop still going — the real
`while True` loop would simply keep running. -/
inductive RunEnd where
  | exited
  | crashed
  | out_of_frames
deriving DecidableEq

/-- Embeds the event-dispatch segment of one iteration of the loop body
(src/gameloop.py 176-181): events are handed to `game.event` in order;
an `ExitGameLoop` raised there aborts the iteration at once (later
events of the frame are never dispatched). -/
def GameLoop.process_events (g : GameScene) : List Event → Except Unit GameScene
  | [] => .ok g
  | e :: rest =>
    match g.event e with
    | .error u => .error u
    | .ok g1 => GameLoop.process_events g1 rest

/-- Embeds the `while True` loop of `GameLoop.run` driven by the null
backend's event queue: `frames` is the per-iteration output of
`pygame.event.get()`; `clock` models `clock.tick(fps)`, whose value
becomes the next iteration's `dt` (the first iteration uses `dt = 0`).
When the queue is exhausted the real loop keeps waiting, so recursion
stops with `out_of_frames`. -/
def GameLoop.run_frames (unit : Angle → Point) (clock : ℕ → ℚ) :
    GameScene → ℚ → ℕ → List (List Event) → RunEnd
  | _, _, _, [] => .out_of_frames
  | g, dt, i, events :: rest =>
    match GameLoop.process_events g events with
    | .error _ => .exited
    | .ok g1 =>
      match GameScene.update unit dt g1 with
      | none => .crashed
      | some g2 => GameLoop.run_frames unit clock g2 (clock i) (i + 1) rest

/-- The observable outcome of `GameLoop.run`. -/
structure LoopResult where
  notifications : List Notification
  pygame_quit_called : Bool
  returned_normally : Bool
deriving DecidableEq

/-- Embeds `GameLoop.run(game, ...)` (src/gameloop.py 165-189): notify
GAMELOOP_INIT, run the loop; `except ExitGameLoop: pass` makes an exit
signal a normal return; the `finally` block notifies GAMELOOP_QUIT and
calls `pygame.quit()` on every way out (a non-exit exception still runs
it, then propagates, so the call does not return normally); a run that
never ends notifies nothing further. -/
def GameLoop.run (unit : Angle → Point) (clock : ℕ → ℚ) (g : GameScene)
    (frames : List (List Event)) : LoopResult :=
  match GameLoop.run_frames unit clock g 0 0 frames with
  | .exited =>
    { notifications := [.gameloop_init, .gameloop_quit]
      pygame_quit_called := true
      returned_normally := true }
  | .crashed =>
    { notifications := [.gameloop_init, .gameloop_quit]
      pygame_quit_called := true
      returned_normally := false }
  | .out_of_frames =>
    { notifications := [.gameloop_init]
      pygame_quit_called := false
      returned_normally := false }

/-! ## Helper lemmas -/

/-- Each `spawn_new` appends exactly one balloon. -/
theorem Balloons.spawn_new_length (bs : Balloons) :
    bs.spawn_new.sprites.length = bs.sprites.length + 1 := by
  simp [Balloons.spawn_new]

/-- `spawn_times n` appends exactly `n` balloons. -/
theorem Balloons.spawn_times_length (n : ℕ) :
    ∀ bs : Balloons, (Balloons.spawn_times n bs).sprites.length = bs.sprites.length + n := by
  induction n with
  | zero => intro bs; rfl
  | succ m ih =>
    intro bs
    rw [Balloons.spawn_times, ih, Balloons.spawn_new_length]
    omega

/-- An arrow that is not shooting, or updated over a zero frame delta,
does not move; in particular the abstract unit vector is irrelevant at
`dt = 0`. -/
theorem Arrow.update_zero (unit : Angle → Point) (a : Arrow) :
    Arrow.update unit 0 a = a := by
  cases a with
  | mk position shooting angle color =>
    cases position with
    | mk x y =>
      simp [Arrow.update, Point.add, Point.move, Point.times]

/-- `Bow.update` at `dt = 0` is the identity. -/
theorem Bow.update_zero_id (unit : Angle → Point) (bw : Bow) :
    Bow.update unit 0 bw = bw := by
  cases bw with
  | mk arrow => simp [Bow.update, Arrow.update_zero]

/-- Mapping the zero-delta arrow update over a list is the identity. -/
theorem Arrow.map_update_zero (unit : Angle → Point) (l : List Arrow) :
    List.map (Arrow.update unit 0) l = l := by
  induction l with
  | nil => rfl
  | cons a rest ih => simp [Arrow.update_zero, ih]

/-- Mapping the zero-delta bow update over the bow dict is the identity. -/
theorem Bow.map_update_zero_id (unit : Angle → Point) (l : List (String × Bow)) :
    List.map (fun kv => (kv.1, Bow.update unit 0 kv.2)) l = l := by
  induction l with
  | nil => rfl
  | cons kv rest ih => simp [Bow.update_zero_id, ih]

/-- At `dt = 0` the abstract unit-vector parameter cannot influence a
gameplay-scene update. -/
theorem GameplayScene.update_zero_unit_irrelevant (u u' : Angle → Point)
    (g : GameplayScene) :
    GameplayScene.update u 0 g = GameplayScene.update u' 0 g := by
  simp only [GameplayScene.update]
  cases GameplayScene.add_shot_arrows g.bows g.flying_arrows
      ((g.input_handler.update 0).get_shots) with
  | none => rfl
  | some arrows1 =>
    cases GameplayScene.turn_bows g.bows ((g.input_handler.update 0).get_turn_angles) with
    | none => rfl
    | some bows1 =>
      simp [Arrow.map_update_zero, Bow.map_update_zero_id]

/-! ## Claim C2 -/

/-- C2 (counterexample): a `Balloons` collection holding four on-screen
balloons with `number_of_balloons = 3` still holds four balloons after
`update(0)` — the population does not equal the configured target. -/
theorem C2_counterexample_population_above_target :
    ¬ ((Balloons.update 0
          (Balloons.new [⟨10, 10⟩, ⟨20, 20⟩, ⟨30, 30⟩, ⟨40, 40⟩]
            (Rectangle.from_size 500 500) 3 (fun _ => 0))).sprites.length
        = (Balloons.new [⟨10, 10⟩, ⟨20, 20⟩, ⟨30, 30⟩, ⟨40, 40⟩]
            (Rectangle.from_size 500 500) 3 (fun _ => 0)).number_of_balloons) :=
  of_decide_eq_true (by with_unfolding_all rfl)

/-- C2 (amended): after `Balloons.update(dt)` the live population equals
the maximum of the configured target and the number of balloons that
survived the movement-and-cull pass: the spawn loop fills the population
up to the target exactly and never lets it remain below the target, but
when more balloons than the target survive, all of them remain. -/
theorem C2_population_eq_max_of_survivors_target (dt : ℚ) (bs : Balloons) :
    (Balloons.update dt bs).sprites.length =
      max (Balloons.cull bs.screen_area (bs.sprites.map (Balloon.update dt))).length
        bs.number_of_balloons := by
  simp only [Balloons.update, Balloons.spawn_loop, Balloons.spawn_times_length]
  omega

/-- The predicate `Angle.to_unit_point_y_neg` is exactly the sign test
the source performs: over the reals,
`to_unit_point().y = sin(radians(degrees))` is strictly negative iff the
angle reduced into [0, 360) lies strictly between 180 and 360. -/
theorem Angle.to_unit_point_y_neg_iff_sin_neg (a : Angle) :
    a.to_unit_point_y_neg = true ↔
      Real.sin ((a.degrees : ℝ) * Real.pi / 180) < 0 := by
  set k : ℤ := ⌊a.degrees / 360⌋ with hk
  set m : ℚ := a.degrees - 360 * k with hm
  have hd : (a.degrees : ℚ) = m + 360 * k := by rw [hm]; ring
  have hm0 : 0 ≤ m := by
    rw [hm]
    have := Int.floor_le (a.degrees / 360)
    nlinarith [this]
  have hm360 : m < 360 := by
    rw [hm]
    have := Int.lt_floor_add_one (a.degrees / 360)
    nlinarith [this]
  have hsin : Real.sin ((a.degrees : ℝ) * Real.pi / 180)
      = Real.sin ((m : ℝ) * Real.pi / 180) := by
    have : ((a.degrees : ℚ) : ℝ) = (m : ℝ) + 360 * (k : ℝ) := by
      rw [hd]; push_cast; ring
    rw [this]
    have harg : ((m : ℝ) + 360 * (k : ℝ)) * Real.pi / 180
        = (m : ℝ) * Real.pi / 180 + (k : ℤ) * (2 * Real.pi) := by
      ring
    rw [harg, Real.sin_add_int_mul_two_pi]
  have hpred : a.to_unit_point_y_neg = true ↔ 180 < m := by
    simp only [Angle.to_unit_point_y_neg, decide_eq_true_eq]
  rw [hpred, hsin]
  constructor
  · intro h180
    have hx : (m : ℝ) * Real.pi / 180 = ((m : ℝ) * Real.pi / 180 - Real.pi) + Real.pi := by ring
    rw [hx, Real.sin_add_pi]
    have hpos : 0 < Real.sin ((m : ℝ) * Real.pi / 180 - Real.pi) := by
      apply Real.sin_pos_of_pos_of_lt_pi
      · have : (180 : ℝ) < (m : ℝ) := by exact_mod_cast h180
        nlinarith [Real.pi_pos]
      · have : (m : ℝ) < 360 := by exact_mod_cast hm360
        nlinarith [Real.pi_pos]
    linarith
  · intro hneg
    by_contra h180
    push_neg at h180
    have : 0 ≤ Real.sin ((m : ℝ) * Real.pi / 180) := by
      apply Real.sin_nonneg_of_nonneg_of_le_pi
      · have : (0 : ℝ) ≤ (m : ℝ) := by exact_mod_cast hm0
        positivity
      · have : (m : ℝ) ≤ 180 := by exact_mod_cast h180
        nlinarith [Real.pi_pos]
    linarith

/-! ## Claim C3 -/

/-- The turn guard is an invariant of `Bow.turn`. -/
theorem Bow.turn_keeps_y_neg (bw : Bow) (delta : Angle)
    (h : (bw.get_angle).to_unit_point_y_neg = true) :
    ((bw.turn delta).get_angle).to_unit_point_y_neg = true := by
  simp only [Bow.turn]
  cases h2 : ((bw.get_angle).add delta).to_unit_point_y_neg with
  | true => simpa [Bow.get_angle, Arrow.get_angle, Arrow.set_angle] using h2
  | false => simpa using h

/-- The turn-guard invariant extends to any sequence of turn calls. -/
theorem Bow.turn_foldl_keeps_y_neg (deltas : List Angle) :
    ∀ bw : Bow, (bw.get_angle).to_unit_point_y_neg = true →
      ((List.foldl Bow.turn bw deltas).get_angle).to_unit_point_y_neg = true := by
  induction deltas with
  | nil => intro bw h; exact h
  | cons d rest ih =>
    intro bw h
    exact ih (bw.turn d) (Bow.turn_keeps_y_neg bw d h)

/-- C3: `Bow.turn` commits the proposed angle only when its unit vector
has a strictly negative y-component; when the proposed angle's
y-component is non-negative the bow is left completely unchanged (hard
clamp, no accumulation), and consequently every bow reachable from the
initial up-facing state by any sequence of turn calls keeps an aim angle
whose unit vector's y-component is negative. -/
theorem C3_bow_turn_clamps_to_upward_half :
    (∀ (bw : Bow) (delta : Angle),
        ((bw.get_angle).add delta).to_unit_point_y_neg = false →
        bw.turn delta = bw) ∧
    (∀ (position : Point) (color : String) (deltas : List Angle),
        ((List.foldl Bow.turn (Bow.new position color) deltas).get_angle).to_unit_point_y_neg
          = true) := by
  constructor
  · intro bw delta h
    simp [Bow.turn, h]
  · intro position color deltas
    apply Bow.turn_foldl_keeps_y_neg
    show (Angle.up).to_unit_point_y_neg = true
    with_unfolding_all rfl

/-- C3 (witness): turning the initial up-facing bow by half a whole turn
(to +90 degrees, pointing straight down, unit y-component 1 ≥ 0) leaves
it unchanged. -/
theorem C3_witness_half_turn_is_noop :
    Bow.turn (Bow.new ⟨600, 600⟩ "blue") (Angle.fraction_of_whole (1/2))
      = Bow.new ⟨600, 600⟩ "blue" :=
  C3_bow_turn_clamps_to_upward_half.1 _ _ (of_decide_eq_true (by with_unfolding_all rfl))

/-! ## Claim C4 -/

/-- C4: with two balloons that are both outside the screen area, the
removal loop of `Balloons.update` (live-list iteration, spec-modelled
`SpriteGroup.remove`) removes the first balloon and then skips the visit
to the second, which therefore survives the update even though it lies
outside the screen area (second conjunct).  The spawn target is 0 here so
only iteration semantics are exercised. -/
theorem C4_removal_during_iteration_skips_next_entity :
    (Balloons.update 0
        (Balloons.new [⟨1000, 1000⟩, ⟨2000, 2000⟩]
          (Rectangle.from_size 500 500) 0 (fun _ => 0))).sprites
      = [Balloon.new ⟨2000, 2000⟩ 40]
    ∧ (Balloon.new ⟨2000, 2000⟩ 40).is_outside_of (Rectangle.from_size 500 500) = true :=
  ⟨of_decide_eq_true (by with_unfolding_all rfl),
   of_decide_eq_true (by with_unfolding_all rfl)⟩

/-! ## Claim C6 -/

/-- C6: `Arrow.clone_shooting` (used by `Bow.shoot`) returns a new arrow
with the source's position, angle and color and the shooting flag set,
and no bow operation ever marks the nocked arrow itself as shooting or
moves it: `shoot` is read-only on the bow, `turn` changes at most the
angle, and the sprite update leaves a non-shooting nocked arrow in
place. -/
theorem C6_clone_shooting_preserves_fields_and_source :
    ∀ (a : Arrow) (bw : Bow) (unit : Angle → Point) (dt : ℚ) (delta : Angle),
      (a.clone_shooting.position = a.position ∧
       a.clone_shooting.angle = a.angle ∧
       a.clone_shooting.color = a.color ∧
       a.clone_shooting.shooting = true) ∧
      bw.shoot = bw.arrow.clone_shooting ∧
      (bw.turn delta).arrow.shooting = bw.arrow.shooting ∧
      (bw.turn delta).arrow.position = bw.arrow.position ∧
      (Bow.update unit dt bw).arrow.shooting = bw.arrow.shooting := by
  intro a bw unit dt delta
  refine ⟨⟨rfl, rfl, rfl, rfl⟩, rfl, ?_, ?_, ?_⟩
  · simp only [Bow.turn]
    split
    · rfl
    · rfl
  · simp only [Bow.turn]
    split
    · rfl
    · rfl
  · simp only [Bow.update, Arrow.update]
    split
    · rfl
    · rfl

/-! ## Claim C10 -/

/-- The loop of `bow_for_player` over a non-empty dict with no matching
key returns the last binding of the loop variable, whatever the
accumulator holds. -/
theorem GameplayScene.bow_for_player_go_not_found :
    ∀ (bows : List (String × Bow)) (player : String) (last : Option Bow),
      player ∉ bows.map Prod.fst → bows ≠ [] →
      GameplayScene.bow_for_player_go bows player last =
        (bows.getLast?).map Prod.snd := by
  intro bows
  induction bows with
  | nil => intro player last _ hne; exact absurd rfl hne
  | cons kv rest ih =>
    intro player last h _
    simp only [List.map_cons, List.mem_cons] at h
    push_neg at h
    simp only [GameplayScene.bow_for_player_go, if_neg (by simpa using (Ne.symm h.1))]
    cases rest with
    | nil => rfl
    | cons r rs =>
      rw [ih player (some kv.2) h.2 (by simp), List.getLast?_cons_cons]

/-- C10: `bow_for_player` called with a player id that is not a key of
the bow dict returns the last bow that was added (the loop variable's
final binding); on an empty dict it produces no bow at all (`none`,
modelling the unhandled `NameError`). -/
theorem C10_bow_for_player_unknown_returns_last_bow
    (bows : List (String × Bow)) (player : String)
    (h : player ∉ bows.map Prod.fst) :
    GameplayScene.bow_for_player bows player = (bows.getLast?).map Prod.snd := by
  cases bows with
  | nil => rfl
  | cons kv rest =>
    exact GameplayScene.bow_for_player_go_not_found (kv :: rest) player none h (by simp)

/-- C10 (witness): on a two-bow dict, an unknown player id gets the
second (last) bow; on the empty dict, no bow is produced. -/
theorem C10_witness_two_bows_and_empty :
    GameplayScene.bow_for_player
        [("a", Bow.new ⟨0, 0⟩ "blue"), ("b", Bow.new ⟨1, 1⟩ "green")] "zz"
      = ([("a", Bow.new ⟨0, 0⟩ "blue"), ("b", Bow.new ⟨1, 1⟩ "green")].getLast?).map Prod.snd
    ∧ GameplayScene.bow_for_player [] "zz" = (([] : List (String × Bow)).getLast?).map Prod.snd :=
  ⟨C10_bow_for_player_unknown_returns_last_bow _ _ (by simp),
   C10_bow_for_player_unknown_returns_last_bow _ _ (by simp)⟩

/-! ## Claim C5 -/

/-- C5: `Arrow.hits_baloon(balloon)` is true exactly when the arrow's
head position is within the balloon's radius of the balloon's center —
the real-valued Euclidean distance `sqrt(dx² + dy²)` is at most the
radius — and the boundary is inclusive: at distance equal to the radius
exactly it counts as a hit. -/
theorem C5_hits_baloon_inclusive_circle_test :
    ∀ (a : Arrow) (b : Balloon),
      (a.hits_baloon b = true ↔
        Real.sqrt ((b.position.distance_to_sq a.position : ℚ) : ℝ) ≤ (b.radius : ℝ)) ∧
      (Real.sqrt ((b.position.distance_to_sq a.position : ℚ) : ℝ) = (b.radius : ℝ) →
        a.hits_baloon b = true) := by
  intro a b
  have key : a.hits_baloon b = true ↔
      (0 ≤ b.radius ∧ b.position.distance_to_sq a.position ≤ b.radius ^ 2) := by
    simp [Arrow.hits_baloon, Balloon.contains]
  have main : a.hits_baloon b = true ↔
      Real.sqrt ((b.position.distance_to_sq a.position : ℚ) : ℝ) ≤ (b.radius : ℝ) := by
    rw [key, Real.sqrt_le_iff]
    constructor
    · rintro ⟨h1, h2⟩
      refine ⟨by exact_mod_cast h1, ?_⟩
      have := (Rat.cast_le (K := ℝ)).mpr h2
      push_cast at this
      exact this
    · rintro ⟨h1, h2⟩
      refine ⟨by exact_mod_cast h1, ?_⟩
      have : ((b.position.distance_to_sq a.position : ℚ) : ℝ) ≤ ((b.radius ^ 2 : ℚ) : ℝ) := by
        push_cast
        exact h2
      exact_mod_cast this
  exact ⟨main, fun h => main.mpr (le_of_eq h)⟩

/-- C5 (witness): an arrow head at distance exactly 40 from the center
of a balloon of radius 40 (head (40,0), center (0,0)) is a hit. -/
theorem C5_witness_boundary_hit :
    (Arrow.new_at ⟨40, 0⟩).hits_baloon (Balloon.new ⟨0, 0⟩ 40) = true :=
  (C5_hits_baloon_inclusive_circle_test (Arrow.new_at ⟨40, 0⟩) (Balloon.new ⟨0, 0⟩ 40)).2
    (by
      have h1 : (((Balloon.new ⟨0, 0⟩ 40).position.distance_to_sq
          (Arrow.new_at ⟨40, 0⟩).position : ℚ) : ℝ) = (40 : ℝ) ^ 2 := by
        norm_num [Balloon.new, Arrow.new_at, Arrow.new, Point.distance_to_sq]
      rw [h1, Real.sqrt_sq (by norm_num)]
      norm_num [Balloon.new])

/-! ## Claim C1 -/

/-- The gameplay scene of the hit scenario: one balloon at (500,500),
one flying arrow at (500,500), one player, on the 1280x720 screen
(the spawn seed stream is arbitrary). -/
def C1scene (seeds : ℕ → ℕ) : GameplayScene :=
  GameplayScene.init (Rectangle.from_size 1280 720) [⟨500, 500⟩] [⟨500, 500⟩]
    ["test_input_device"] seeds

/-- A balloon spawned at the top edge during the scenario's update, at
the random x chosen by seed `i` (50 plus the seed reduced into the
1181-wide deflated range). -/
def C1spawned (seeds : ℕ → ℕ) (i : ℕ) : Balloon :=
  Balloon.new ⟨((50 + ((seeds i : ℤ) % 1181) : ℤ) : ℚ), 0⟩ 40

/-- The hit scenario's complete post-state: the hit balloon and the hit
arrow are gone (only the two freshly spawned top-edge balloons remain),
and the score is 1. -/
theorem C1scene_update_eq (seeds : ℕ → ℕ) :
    GameplayScene.update (fun _ => ⟨0, 0⟩) 0 (C1scene seeds) =
      some
        { screen_area := Rectangle.from_size 1280 720
          balloons :=
            { sprites := [C1spawned seeds 0, C1spawned seeds 1]
              screen_area := Rectangle.from_size 1280 720
              number_of_balloons := 3
              seeds := seeds
              seed_idx := 2 }
          bows := [("test_input_device", Bow.new ⟨640, 600⟩ "blue")]
          flying_arrows := []
          score := 1
          input_handler := InputHandler.new } := by
  with_unfolding_all rfl

/-- C1: in the gameplay scene with one balloon and one flying arrow both
at (500,500), a single `update(0)` call (one pure function application,
so there is no intermediate state an observer could see) produces a
state in which simultaneously the balloon is no longer in
`get_balloons()`, the arrow is no longer in `get_flying_arrows()`, and
`get_score()` went from 0 to exactly 1 — for every random spawn stream
and every interpretation of the unit vector. -/
theorem C1_hit_resolved_atomically_in_one_update :
    ∀ (unit : Angle → Point) (seeds : ℕ → ℕ),
      ∃ g1 : GameplayScene,
        GameplayScene.update unit 0 (C1scene seeds) = some g1 ∧
        Balloon.new ⟨500, 500⟩ 40 ∉ g1.get_balloons ∧
        Arrow.new_at ⟨500, 500⟩ ∉ g1.get_flying_arrows ∧
        (C1scene seeds).get_score = 0 ∧
        g1.get_score = 1 := by
  intro unit seeds
  rw [GameplayScene.update_zero_unit_irrelevant unit (fun _ => ⟨0, 0⟩), C1scene_update_eq]
  refine ⟨_, rfl, ?_, ?_, rfl, rfl⟩
  · intro hmem
    simp only [GameplayScene.get_balloons, C1spawned, Balloon.new, List.mem_cons,
      List.not_mem_nil, or_false, Balloon.mk.injEq, Point.mk.injEq] at hmem
    rcases hmem with ⟨⟨_, h0⟩, _⟩ | ⟨⟨_, h0⟩, _⟩ <;> norm_num at h0
  · simp [GameplayScene.get_flying_arrows]

/-! ## Claim C7 -/

/-- The source id a single event contributes to `shots_triggered`:
"keyboard" for a space keydown, "joystick{N}" for an Xbox-A button down,
nothing otherwise (spec 4.3: the shoot action is edge-triggered). -/
def Event.shoot_source : Event → Option String
  | .keydown k => if k = KEY_SPACE then some "keyboard" else none
  | .joystick_down b iid => if b = XBOX_A then some (InputHandler.joystick_id iid) else none
  | _ => none

/-- A single event appends exactly its shoot source (if any) to the
buffer and touches nothing else of the buffer. -/
theorem InputHandler.event_shots_triggered (ih : InputHandler) (e : Event) :
    (ih.event e).shots_triggered = ih.shots_triggered ++ (Event.shoot_source e).toList := by
  cases e with
  | keydown k =>
    simp only [InputHandler.event, Event.shoot_source]
    split_ifs <;> simp
  | keyup k =>
    simp only [InputHandler.event, Event.shoot_source]
    split_ifs <;> simp
  | joystick_down b iid =>
    simp only [InputHandler.event, Event.shoot_source]
    split_ifs <;> simp
  | joystick_motion axis value iid =>
    simp only [InputHandler.event, Event.shoot_source]
    split_ifs <;> simp
  | user_closed_window => simp [InputHandler.event, Event.shoot_source]

/-- Feeding a batch of events appends exactly their shoot sources. -/
theorem InputHandler.foldl_event_shots_triggered (events : List Event) :
    ∀ ih : InputHandler,
      (events.foldl InputHandler.event ih).shots_triggered
        = ih.shots_triggered ++ events.filterMap Event.shoot_source := by
  induction events with
  | nil => intro ih; simp
  | cons e rest ih_ind =>
    intro ih
    rw [List.foldl_cons, ih_ind, InputHandler.event_shots_triggered]
    cases h : Event.shoot_source e <;> simp [List.filterMap_cons, h]

/-- The gameplay scene of the shooting scenario: the default
construction on the 1280x720 screen (no initial balloons or flying
arrows, the single default player). -/
def C7scene : GameplayScene :=
  GameplayScene.init (Rectangle.from_size 1280 720) [] [] ["test_input_device"] (fun _ => 0)

/-- The scenario's state after one space keydown and one `update(0)`:
three balloons have spawned, exactly one flying arrow was added (cloned
shooting from the bow), and the drained shot still sits in the input
handler's published `shots` list. -/
def C7mid : GameplayScene :=
  { screen_area := Rectangle.from_size 1280 720
    balloons :=
      { sprites := [Balloon.new ⟨50, 0⟩ 40, Balloon.new ⟨50, 0⟩ 40, Balloon.new ⟨50, 0⟩ 40]
        screen_area := Rectangle.from_size 1280 720
        number_of_balloons := 3
        seeds := fun _ => 0
        seed_idx := 3 }
    bows := [("test_input_device", Bow.new ⟨640, 600⟩ "blue")]
    flying_arrows := [Arrow.new true ⟨640, 600⟩ Angle.up "blue"]
    score := 0
    input_handler := ⟨[], [], ["keyboard"], []⟩ }

/-- The scenario's state after a further `update(0)` with no new shot
event: identical except that the input handler published an empty shot
list. -/
def C7after : GameplayScene :=
  { C7mid with input_handler := InputHandler.new }

/-- C7: shots are edge-triggered and drained once per frame.  After
`InputHandler.update`, `get_shots()` returns exactly the shoot sources
of the events fed in since the previous update (first conjunct; a
further update with no events therefore publishes `[]`).  In the
gameplay scene, one space keydown followed by `update(0)` adds exactly
one flying arrow, and a further `update(0)` without a new shot event
leaves the flying arrows untouched. -/
theorem C7_shots_edge_triggered_and_drained_once :
    (∀ (ih : InputHandler) (dt0 : ℚ) (events : List Event) (dt : ℚ),
        ((events.foldl InputHandler.event (ih.update dt0)).update dt).get_shots
          = events.filterMap Event.shoot_source) ∧
    (∀ unit : Angle → Point,
        GameplayScene.update unit 0 (C7scene.event (.keydown KEY_SPACE)) = some C7mid ∧
        C7mid.get_flying_arrows.length = 1 ∧
        GameplayScene.update unit 0 C7mid = some C7after ∧
        C7after.get_flying_arrows = C7mid.get_flying_arrows) := by
  constructor
  · intro ih dt0 events dt
    show (events.foldl InputHandler.event (ih.update dt0)).shots_triggered = _
    rw [InputHandler.foldl_event_shots_triggered]
    simp [InputHandler.update]
  · intro unit
    rw [GameplayScene.update_zero_unit_irrelevant unit (fun _ => ⟨0, 0⟩)
          (C7scene.event (.keydown KEY_SPACE)),
        GameplayScene.update_zero_unit_irrelevant unit (fun _ => ⟨0, 0⟩) C7mid]
    refine ⟨?_, rfl, ?_, rfl⟩
    · with_unfolding_all rfl
    · with_unfolding_all rfl

/-! ## Claim C8 -/

/-- C8: on a fresh start scene (any screen area, any initial balloon
scatter, any random stream, any frame deltas), after one joystick source
shoots once and an update runs, `get_players()` is still `None`; after
the same source shoots a second time and an update runs,
`get_players()` is exactly the one-element list with that source id. -/
theorem C8_second_shot_promotes_single_pending_player :
    ∀ (screen_area : Rectangle) (positions : List Point) (seeds : ℕ → ℕ) (dt1 dt2 : ℚ),
      (((StartScene.init screen_area positions seeds).event
          (.joystick_down XBOX_A 7)).update dt1).get_players = none ∧
      (((((StartScene.init screen_area positions seeds).event
          (.joystick_down XBOX_A 7)).update dt1).event
            (.joystick_down XBOX_A 7)).update dt2).get_players = some ["joystick7"] := by
  intro screen_area positions seeds dt1 dt2
  constructor
  · with_unfolding_all rfl
  · with_unfolding_all rfl

/-! ## Claim C9 -/

/-- Well-formedness of a game scene: a gameplay scene always owns at
least one bow (guaranteed by construction, since the start scene only
promotes a non-empty roster). -/
def GameScene.wf (g : GameScene) : Prop :=
  match g.active with
  | .start _ => True
  | .play gp => gp.bows ≠ []

/-- `init_bows` creates exactly one bow per player. -/
theorem GameplayScene.init_bows_go_length (players : List String) :
    ∀ (inc : ℚ) (pos : Point) (colors : ColorGenerator),
      (GameplayScene.init_bows_go inc pos colors players).length = players.length := by
  induction players with
  | nil => intro inc pos colors; rfl
  | cons p rest ih =>
    intro inc pos colors
    simp [GameplayScene.init_bows_go, ih]

/-- The `bow_for_player` loop yields a bow whenever the accumulator
already holds one. -/
theorem GameplayScene.bow_for_player_go_isSome (bows : List (String × Bow)) :
    ∀ (player : String) (bw0 : Bow),
      (GameplayScene.bow_for_player_go bows player (some bw0)).isSome = true := by
  induction bows with
  | nil => intro player bw0; rfl
  | cons kv rest ih =>
    intro player bw0
    simp only [GameplayScene.bow_for_player_go]
    split
    · rfl
    · exact ih player kv.2

/-- On a non-empty bow dict, `bow_for_player` always yields a bow. -/
theorem GameplayScene.bow_for_player_isSome (bows : List (String × Bow)) (player : String)
    (h : bows ≠ []) : (GameplayScene.bow_for_player bows player).isSome = true := by
  cases bows with
  | nil => exact absurd rfl h
  | cons kv rest =>
    simp only [GameplayScene.bow_for_player, GameplayScene.bow_for_player_go]
    split
    · rfl
    · exact GameplayScene.bow_for_player_go_isSome rest player kv.2

/-- On a non-empty bow dict, the shot loop never crashes. -/
theorem GameplayScene.add_shot_arrows_some (bows : List (String × Bow)) (h : bows ≠ [])
    (shots : List String) :
    ∀ arrows : List Arrow,
      ∃ r, GameplayScene.add_shot_arrows bows arrows shots = some r := by
  induction shots with
  | nil => intro arrows; exact ⟨arrows, rfl⟩
  | cons p rest ih =>
    intro arrows
    have hs := GameplayScene.bow_for_player_isSome bows p h
    cases hbp : GameplayScene.bow_for_player bows p with
    | none => rw [hbp] at hs; simp at hs
    | some bw =>
      obtain ⟨r, hr⟩ := ih (arrows ++ [bw.shoot])
      exact ⟨r, by simp only [GameplayScene.add_shot_arrows, hbp, hr]⟩

/-- One turn-loop step preserves the size of the bow dict. -/
theorem GameplayScene.turn_bow_go_length :
    ∀ (bows : List (String × Bow)) (player : String) (angle : Angle),
      (GameplayScene.turn_bow_go bows player angle).length = bows.length := by
  intro bows
  induction bows with
  | nil => intro player angle; rfl
  | cons kv rest ih =>
    intro player angle
    cases rest with
    | nil => rfl
    | cons next rs =>
      simp only [GameplayScene.turn_bow_go]
      split
      · rfl
      · simpa using ih player angle

/-- On a non-empty bow dict, the turn loop never crashes and keeps the
dict non-empty. -/
theorem GameplayScene.turn_bows_some (angles : List (String × Angle)) :
    ∀ bows : List (String × Bow), bows ≠ [] →
      ∃ bows2, GameplayScene.turn_bows bows angles = some bows2 ∧ bows2 ≠ [] := by
  induction angles with
  | nil => intro bows h; exact ⟨bows, rfl, h⟩
  | cons pa rest ih =>
    intro bows h
    have hgo : (GameplayScene.turn_bow_go bows pa.1 pa.2).length = bows.length :=
      GameplayScene.turn_bow_go_length bows pa.1 pa.2
    have hne : GameplayScene.turn_bow_go bows pa.1 pa.2 ≠ [] := by
      intro hnil
      rw [hnil] at hgo
      cases bows with
      | nil => exact h rfl
      | cons kv rs => simp at hgo
    obtain ⟨bows2, hb2, hb2ne⟩ := ih (GameplayScene.turn_bow_go bows pa.1 pa.2) hne
    refine ⟨bows2, ?_, hb2ne⟩
    cases bows with
    | nil => exact absurd rfl h
    | cons kv rs =>
      simpa only [GameplayScene.turn_bows, GameplayScene.turn_bow] using hb2

/-- A gameplay scene with at least one bow updates without crashing and
keeps at least one bow. -/
theorem GameplayScene.update_some (unit : Angle → Point) (dt : ℚ) (gp : GameplayScene)
    (h : gp.bows ≠ []) :
    ∃ gp1, GameplayScene.update unit dt gp = some gp1 ∧ gp1.bows ≠ [] := by
  obtain ⟨arrows1, ha⟩ :=
    GameplayScene.add_shot_arrows_some gp.bows h
      ((gp.input_handler.update dt).get_shots) gp.flying_arrows
  obtain ⟨bows1, hb, hbne⟩ :=
    GameplayScene.turn_bows_some ((gp.input_handler.update dt).get_turn_angles) gp.bows h
  cases hu : GameplayScene.update unit dt gp with
  | none =>
    simp only [GameplayScene.update, ha, hb] at hu
    simp at hu
  | some gp1 =>
    refine ⟨gp1, rfl, ?_⟩
    simp only [GameplayScene.update, ha, hb, Option.some.injEq] at hu
    rw [← hu]
    simpa using hbne

/-- Event dispatch preserves well-formedness (it only feeds the active
scene's input handler). -/
theorem GameScene.event_wf (g : GameScene) (e : Event) (g1 : GameScene)
    (hok : g.event e = .ok g1) (hwf : g.wf) : g1.wf := by
  unfold GameScene.event at hok
  split at hok
  · cases hok
  · cases hok
    cases hact : g.active with
    | start s => simp [GameScene.wf, hact]
    | play gp =>
      have : gp.bows ≠ [] := by simpa [GameScene.wf, hact] using hwf
      simpa [GameScene.wf, hact, GameplayScene.event] using this

/-- A well-formed game scene updates without crashing, staying
well-formed. -/
theorem GameScene.update_wf (unit : Angle → Point) (dt : ℚ) (g : GameScene) (hwf : g.wf) :
    ∃ g1, GameScene.update unit dt g = some g1 ∧ g1.wf := by
  cases hact : g.active with
  | start s =>
    simp only [GameScene.update, hact]
    cases hp : (s.update dt).get_players with
    | none => exact ⟨_, rfl, by simp [GameScene.wf]⟩
    | some players =>
      cases players with
      | nil => exact ⟨_, rfl, by simp [GameScene.wf]⟩
      | cons p ps =>
        refine ⟨_, rfl, ?_⟩
        simp only [GameScene.wf, GameplayScene.init]
        intro hnil
        have := GameplayScene.init_bows_go_length (p :: ps)
          (g.screen_area.width / ((p :: ps).length + 1))
          ((g.screen_area.bottomleft).move 0 (-120)) ColorGenerator.new
        rw [GameplayScene.init_bows] at hnil
        rw [hnil] at this
        simp at this
  | play gp =>
    have hbows : gp.bows ≠ [] := by simpa [GameScene.wf, hact] using hwf
    obtain ⟨gp1, hgp, hgp1⟩ := GameplayScene.update_some unit dt gp hbows
    refine ⟨{ g with active := .play gp1 }, ?_, ?_⟩
    · simp only [GameScene.update, hact, hgp]
      rfl
    · simpa [GameScene.wf] using hgp1

/-- A frame whose events include a user-closed-window event makes event
dispatch raise the exit signal. -/
theorem GameLoop.process_events_error (events : List Event) :
    ∀ g : GameScene, events.any Event.is_user_closed_window = true →
      GameLoop.process_events g events = .error () := by
  induction events with
  | nil => intro g h; simp at h
  | cons e rest ih =>
    intro g h
    cases hc : e.is_user_closed_window with
    | true =>
      simp only [GameLoop.process_events, GameScene.event, hc, if_true]
    | false =>
      have hrest : rest.any Event.is_user_closed_window = true := by
        simpa [List.any_cons, hc] using h
      simp only [GameLoop.process_events, GameScene.event, hc, if_false]
      exact ih _ hrest

/-- A frame with no user-closed-window event dispatches cleanly and
preserves well-formedness. -/
theorem GameLoop.process_events_ok (events : List Event) :
    ∀ g : GameScene, g.wf → events.any Event.is_user_closed_window = false →
      ∃ g1, GameLoop.process_events g events = .ok g1 ∧ g1.wf := by
  induction events with
  | nil => intro g hwf _; exact ⟨g, rfl, hwf⟩
  | cons e rest ih =>
    intro g hwf h
    have hc : e.is_user_closed_window = false := by
      by_contra hcc
      simp only [Bool.not_eq_false] at hcc
      simp [List.any_cons, hcc] at h
    have hrest : rest.any Event.is_user_closed_window = false := by
      simpa [List.any_cons, hc] using h
    have hok : g.event e = .ok { g with active :=
        match g.active with
        | .start s => .start (s.event e)
        | .play gp => .play (gp.event e) } := by
      simp [GameScene.event, hc]
    have hwf1 : ({ g with active :=
        match g.active with
        | .start s => .start (s.event e)
        | .play gp => .play (gp.event e) } : GameScene).wf :=
      GameScene.event_wf g e _ hok hwf
    obtain ⟨g1, hg1, hg1wf⟩ := ih _ hwf1 hrest
    refine ⟨g1, ?_, hg1wf⟩
    simp only [GameLoop.process_events, hok]
    exact hg1

/-- Under well-formedness, the loop exits iff some frame carries a
user-closed-window event, and it never crashes. -/
theorem GameLoop.run_frames_spec (unit : Angle → Point) (clock : ℕ → ℚ)
    (frames : List (List Event)) :
    ∀ (g : GameScene) (dt : ℚ) (i : ℕ), g.wf →
      ((GameLoop.run_frames unit clock g dt i frames = .exited ↔
          frames.any (fun f => f.any Event.is_user_closed_window) = true) ∧
        GameLoop.run_frames unit clock g dt i frames ≠ .crashed) := by
  induction frames with
  | nil =>
    intro g dt i _
    constructor
    · constructor
      · intro h; cases h
      · intro h; simp at h
    · intro h; cases h
  | cons events rest ih =>
    intro g dt i hwf
    cases hc : events.any Event.is_user_closed_window with
    | true =>
      have herr := GameLoop.process_events_error events g hc
      constructor
      · simp only [GameLoop.run_frames, herr, List.any_cons, hc, Bool.true_or]
      · simp only [GameLoop.run_frames, herr]
        intro h; cases h
    | false =>
      obtain ⟨g1, hg1, hg1wf⟩ := GameLoop.process_events_ok events g hwf hc
      obtain ⟨g2, hg2, hg2wf⟩ := GameScene.update_wf unit dt g1 hg1wf
      have hrec := ih g2 (clock i) (i + 1) hg2wf
      constructor
      · simp only [GameLoop.run_frames, hg1, hg2, List.any_cons, hc, Bool.false_or]
        exact hrec.1
      · simp only [GameLoop.run_frames, hg1, hg2]
        exact hrec.2

/-- C9: for the balloon-shooter game scene, `GameLoop.run` returns
normally exactly when the event stream delivers a user-closed-window
event (which raises the exit signal from within event handling); in that
case — the sole normal-termination path — the driver performs the
GAMELOOP_QUIT teardown notification and the backend quit call. -/
theorem C9_close_window_exits_loop_normally :
    ∀ (unit : Angle → Point) (clock : ℕ → ℚ) (screen_area : Rectangle)
      (positions : List Point) (sseeds gseeds : ℕ → ℕ) (frames : List (List Event)),
      ((GameLoop.run unit clock (GameScene.init screen_area positions sseeds gseeds)
          frames).returned_normally = true ↔
        frames.any (fun f => f.any Event.is_user_closed_window) = true) ∧
      ((GameLoop.run unit clock (GameScene.init screen_area positions sseeds gseeds)
          frames).returned_normally = true →
        (GameLoop.run unit clock (GameScene.init screen_area positions sseeds gseeds)
            frames).notifications = [.gameloop_init, .gameloop_quit] ∧
        (GameLoop.run unit clock (GameScene.init screen_area positions sseeds gseeds)
            frames).pygame_quit_called = true) := by
  intro unit clock screen_area positions sseeds gseeds frames
  have hwf : (GameScene.init screen_area positions sseeds gseeds).wf := by
    simp [GameScene.wf, GameScene.init]
  have hspec := GameLoop.run_frames_spec unit clock frames
    (GameScene.init screen_area positions sseeds gseeds) 0 0 hwf
  unfold GameLoop.run
  cases hrun : GameLoop.run_frames unit clock
      (GameScene.init screen_area positions sseeds gseeds) 0 0 frames with
  | exited =>
    rw [hrun] at hspec
    constructor
    · simpa using hspec.1
    · intro _; exact ⟨rfl, rfl⟩
  | crashed => exact absurd hrun hspec.2
  | out_of_frames =>
    rw [hrun] at hspec
    constructor
    · constructor
      · intro h; simp at h
      · intro h
        have := hspec.1.mpr h
        cases this
    · intro h; simp at h

/-- C9 (witness): a run whose first frame is the user closing the window
returns normally with the GAMELOOP_QUIT notification and the backend
quit call. -/
theorem C9_witness_close_event_run :
    (GameLoop.run (fun _ => ⟨0, 0⟩) (fun _ => 1)
        (GameScene.init (Rectangle.from_size 1280 720) [] (fun _ => 0) (fun _ => 0))
        [[.user_closed_window]]).notifications = [.gameloop_init, .gameloop_quit] ∧
    (GameLoop.run (fun _ => ⟨0, 0⟩) (fun _ => 1)
        (GameScene.init (Rectangle.from_size 1280 720) [] (fun _ => 0) (fun _ => 0))
        [[.user_closed_window]]).pygame_quit_called = true :=
  (C9_close_window_exits_loop_normally (fun _ => ⟨0, 0⟩) (fun _ => 1)
      (Rectangle.from_size 1280 720) [] (fun _ => 0) (fun _ => 0)
      [[.user_closed_window]]).2 (by with_unfolding_all rfl)
